import Mathlib

/-!
Shallow embedding of the blog API's authentication and authorization core
(`src/blog_api/`: `models.py`, `permissions.py`, `authentication.py`,
`serializers.py`, `views.py`).

Persistence is modelled as explicit lists of records; HTTP methods as an
enumeration; the actor of a request as `Option Identity` (absent means an
anonymous request, Django's `AnonymousUser`, whose `id` is `None` and whose
`is_authenticated` is `False`). Fallible request handling returns
`Except ApiError`.
-/

/-- `models.User`: unique integer id, unique username, password hash
(`date_joined` carries no logic and is omitted). -/
structure User where
  id : Nat
  username : String
  password : String
deriving Repr, DecidableEq

/-- `models.Post`: `author` is the foreign key (the author's user id,
`on_delete=CASCADE`); timestamps carry no logic and are omitted. -/
structure Post where
  id : Nat
  author : Nat
  title : String
  body : String
  is_published : Bool
deriving Repr, DecidableEq

/-- `models.Comment`: `post` and `author` are foreign keys
(`on_delete=CASCADE`); timestamps omitted. -/
structure Comment where
  id : Nat
  post : Nat
  author : Nat
  body : String
  is_approved : Bool
deriving Repr, DecidableEq

/-- The identity resolved from a validated token: Django's `request.user`
when authentication succeeded. -/
structure Identity where
  user_id : Nat
  username : String
deriving Repr, DecidableEq

/-- HTTP method of a request. -/
inductive Method where
  | GET | HEAD | OPTIONS | POST | PUT | PATCH | DELETE
deriving Repr, DecidableEq

/-- `rest_framework.permissions.SAFE_METHODS = ('GET', 'HEAD', 'OPTIONS')`. -/
def Method.isSafe : Method → Bool
  | .GET => true
  | .HEAD => true
  | .OPTIONS => true
  | _ => false

/-- Client-visible error kinds produced by the request pipeline. -/
inductive ApiError where
  | notAuthenticated
  | permissionDenied
  | notFound
  | authenticationFailed (msg : String)
  | improperlyConfigured (msg : String)
  | validationError (msg : String)
deriving Repr, DecidableEq

/-- `permissions.IsAuthorOrReadOnly.has_object_permission`: safe methods are
allowed; otherwise `obj.author.id == request.user.id`. For an anonymous
request `request.user.id` is `None`, which never equals an integer author id,
hence `false` in the absent-actor branch. `objAuthor` is the id of the
already-persisted resource's author. -/
def IsAuthorOrReadOnly.has_object_permission
    (actor : Option Identity) (method : Method) (objAuthor : Nat) : Bool :=
  if method.isSafe then true
  else
    match actor with
    | some a => objAuthor == a.user_id
    | none => false

/-- `permissions.IsAuthenticatedOrReadOnlyPublished.has_permission`: safe
methods are allowed for everyone; otherwise the request must be
authenticated. -/
def IsAuthenticatedOrReadOnlyPublished.has_permission
    (actor : Option Identity) (method : Method) : Bool :=
  if method.isSafe then true else actor.isSome

/-- `permissions.IsAuthenticatedOrReadOnlyPublished.has_object_permission`:
for safe methods, anonymous actors see only published posts and authenticated
actors see everything; for unsafe methods, only the persisted author. -/
def IsAuthenticatedOrReadOnlyPublished.has_object_permission
    (actor : Option Identity) (method : Method) (obj : Post) : Bool :=
  if method.isSafe then
    match actor with
    | none => obj.is_published
    | some _ => true
  else
    match actor with
    | some a => obj.author == a.user_id
    | none => false

/-- `rest_framework.permissions.IsAuthenticated.has_permission`:
`request.user and request.user.is_authenticated`. -/
def IsAuthenticated.has_permission (actor : Option Identity) : Bool :=
  actor.isSome

/-- Modelled from the spec: DRF's `APIView.permission_denied` (framework
glue, not in `src/`) raises `NotAuthenticated` when the failing request
carries no successful authentication and `PermissionDenied` otherwise — the
spec's distinction between `AuthenticationRequired` and
`OwnershipViolation`. -/
def permission_denied (actor : Option Identity) : ApiError :=
  match actor with
  | none => ApiError.notAuthenticated
  | some _ => ApiError.permissionDenied

/-- Whether a pipeline result reached the handler (was allowed). -/
def isAllowed {α : Type} : Except ApiError α → Bool
  | .ok _ => true
  | .error _ => false

/-- `views.PostViewSet.get_queryset`: anonymous requests see only
`is_published=True` posts; authenticated requests see the full queryset. -/
def PostViewSet.get_queryset (actor : Option Identity) (posts : List Post) :
    List Post :=
  match actor with
  | none => posts.filter (·.is_published)
  | some _ => posts

/-- `views.PostViewSet.list`: view-level `has_permission` for a safe method
always passes, then the filtered queryset is returned. -/
def PostViewSet.list (actor : Option Identity) (posts : List Post) :
    List Post :=
  PostViewSet.get_queryset actor posts

/-- Detail-route dispatch of `views.PostViewSet` for method `method` on post
id `pid`: DRF checks `IsAuthenticatedOrReadOnlyPublished.has_permission`,
then `get_object` looks `pid` up in `get_queryset` (`NotFound` if absent),
then `check_object_permissions` runs
`IsAuthenticatedOrReadOnlyPublished.has_object_permission`. Returns the
persisted object the handler would act on. -/
def PostViewSet.dispatch (actor : Option Identity) (method : Method)
    (pid : Nat) (posts : List Post) : Except ApiError Post :=
  if IsAuthenticatedOrReadOnlyPublished.has_permission actor method then
    match (PostViewSet.get_queryset actor posts).find? (·.id == pid) with
    | none => .error ApiError.notFound
    | some obj =>
      if IsAuthenticatedOrReadOnlyPublished.has_object_permission actor method obj then
        .ok obj
      else
        .error (permission_denied actor)
  else
    .error (permission_denied actor)

/-- Detail-route dispatch of `views.CommentViewSet`
(`permission_classes = [IsAuthenticated, IsAuthorOrReadOnly]`;
`IsAuthorOrReadOnly` keeps the default view-level `has_permission`, which is
`True`, and `IsAuthenticated` keeps the default object-level permission,
which is `True`). -/
def CommentViewSet.dispatch (actor : Option Identity) (method : Method)
    (cid : Nat) (comments : List Comment) : Except ApiError Comment :=
  if IsAuthenticated.has_permission actor then
    match comments.find? (·.id == cid) with
    | none => .error ApiError.notFound
    | some obj =>
      if IsAuthorOrReadOnly.has_object_permission actor method obj.author then
        .ok obj
      else
        .error (permission_denied actor)
  else
    .error (permission_denied actor)

/-- List route of `views.CommentViewSet`:
`IsAuthenticated.has_permission` gates the whole queryset. -/
def CommentViewSet.list (actor : Option Identity) (comments : List Comment) :
    Except ApiError (List Comment) :=
  if IsAuthenticated.has_permission actor then .ok comments
  else .error (permission_denied actor)

/-- `views.PostViewSet.get_comments` (`GET /posts/{id}/comments/`): the
`@action` carries `permission_classes=[IsAuthenticated]`, shared by the GET
mapping; on success `self.get_object()` resolves the post in
`get_queryset` and the post's comments are returned. -/
def PostViewSet.get_comments (actor : Option Identity) (pid : Nat)
    (posts : List Post) (comments : List Comment) :
    Except ApiError (List Comment) :=
  if IsAuthenticated.has_permission actor then
    match (PostViewSet.get_queryset actor posts).find? (·.id == pid) with
    | none => .error ApiError.notFound
    | some p => .ok (comments.filter (·.post == p.id))
  else
    .error (permission_denied actor)

/-- Modelled from the spec: Django's `make_password` (from
`django.contrib.auth.hashers`, an external collaborator, not in `src/`)
computes a one-way salted hash of the raw password; modelled as a tagged
encoding with the algorithm/salt prefix Django prepends. -/
def make_password (raw : String) : String :=
  "pbkdf2_sha256$600000$salt$" ++ raw

/-- Modelled from the spec: Django's `check_password` (external, not in
`src/`) re-hashes the candidate and compares against the stored hash. -/
def check_password (raw hashed : String) : Bool :=
  hashed == make_password raw

/-- `models.User.set_password`: stores `make_password(raw_password)` in the
`password` field. -/
def User.set_password (u : User) (raw : String) : User :=
  { u with password := make_password raw }

/-- The token's identity claims (`user_id`, `username`), as set by
`CustomTokenObtainPairSerializer.get_token`; signature, expiry and
token-type machinery live in the external `rest_framework_simplejwt`
library, so a validated token is just its claims here. -/
structure Token where
  user_id : Nat
  username : String
deriving Repr, DecidableEq

/-- `CustomTokenObtainPairSerializer.get_token`: a fresh refresh token with
claims `user_id := user.id` and `username := user.username`. -/
def CustomTokenObtainPairSerializer.get_token (user : User) : Token :=
  { user_id := user.id, username := user.username }

/-- Modelled from the spec: `rest_framework_simplejwt`'s
`RefreshToken.access_token` (external, not in `src/`) derives an access
token carrying the same identity claims as the refresh token. -/
def RefreshToken.access_token (t : Token) : Token := t

/-- `authentication.CustomJWTAuthentication.get_user`: resolve the
`user_id` claim of a validated token against the `User` table;
`User.DoesNotExist` becomes `AuthenticationFailed('User not found')`. -/
def CustomJWTAuthentication.get_user (validated_token : Token)
    (users : List User) : Except ApiError User :=
  match users.find? (·.id == validated_token.user_id) with
  | some u => .ok u
  | none => .error (ApiError.authenticationFailed "User not found")

/-- `authentication.CustomTokenObtainPairSerializer.validate`: look the
username up (`User.DoesNotExist` and a failed `check_password` both raise
`AuthenticationFailed` with the identical message), then issue the token
pair. Returns the refresh token together with the echoed
`user_id`/`username` on success. -/
def CustomTokenObtainPairSerializer.validate (username password : String)
    (users : List User) : Except ApiError (Token × Nat × String) :=
  match users.find? (·.username == username) with
  | none =>
    .error (ApiError.authenticationFailed
      "No active account found with the given credentials")
  | some user =>
    if ! check_password password user.password then
      .error (ApiError.authenticationFailed
        "No active account found with the given credentials")
    else
      .ok (CustomTokenObtainPairSerializer.get_token user, user.id,
        user.username)

/-- The fields of `models.User` (plus the implicit primary key `id`). -/
def User.modelFields : List String :=
  ["id", "username", "password", "date_joined"]

/-- The serializer fields declared directly on
`serializers.UserSerializer` (`password = serializers.CharField(...)`). -/
def UserSerializer.declaredFields : List String :=
  ["password"]

/-- `serializers.UserSerializer.Meta.fields`. -/
def UserSerializer.metaFields : List String :=
  ["id", "username", "email", "password", "date_joined"]

/-- Modelled from the spec: DRF's `ModelSerializer` field construction
(framework glue, not in `src/`): every `Meta.fields` name must be a
declared serializer field or an attribute of the model, otherwise
`build_unknown_field` raises `ImproperlyConfigured`. -/
def ModelSerializer.build_fields (declared metaFields modelFields : List String)
    (modelName : String) : Except ApiError (List String) :=
  match metaFields.find?
      (fun f => !(declared.contains f || modelFields.contains f)) with
  | some f =>
    .error (ApiError.improperlyConfigured
      ("Field name " ++ f ++ " is not valid for model " ++ modelName ++ "."))
  | none => .ok metaFields

/-- `serializers.UserSerializer.create`: build the user from the validated
data, replace the raw password with its hash via `set_password`, save.
`nextId` models the autoincrement primary key. -/
def UserSerializer.create (username raw : String) (nextId : Nat) : User :=
  User.set_password { id := nextId, username := username, password := raw } raw

/-- Registration (`UserViewSet` action `create`, permission `AllowAny`):
DRF first builds the serializer fields (raising `ImproperlyConfigured` for
an invalid `Meta.fields` entry), then runs the `UniqueValidator` the model's
`unique=True` on `username` induces, then `UserSerializer.create` persists
the new user. Returns the created user and the updated table. -/
def UserViewSet.create_user (username raw : String) (users : List User)
    (nextId : Nat) : Except ApiError (User × List User) :=
  match ModelSerializer.build_fields UserSerializer.declaredFields
      UserSerializer.metaFields User.modelFields "User" with
  | .error e => .error e
  | .ok _ =>
    if users.any (·.username == username) then
      .error (ApiError.validationError
        "user with this username already exists.")
    else
      let user := UserSerializer.create username raw nextId
      .ok (user, users ++ [user])

/-- The persistent store: the three tables. -/
structure Store where
  users : List User
  posts : List Post
  comments : List Comment
deriving Repr, DecidableEq

/-- Referential integrity of the store: every post's author and every
comment's author resolve to an existing user, and every comment's parent
post exists. -/
def Store.wellFormed (s : Store) : Prop :=
  (∀ p ∈ s.posts, ∃ u ∈ s.users, u.id = p.author) ∧
  (∀ c ∈ s.comments, ∃ u ∈ s.users, u.id = c.author) ∧
  (∀ c ∈ s.comments, ∃ p ∈ s.posts, p.id = c.post)

instance (s : Store) : Decidable s.wellFormed := by
  unfold Store.wellFormed
  exact inferInstance

/-- Deleting a post: `Comment.post` has `on_delete=CASCADE`, so the post's
comments are deleted with it. -/
def Store.delete_post (s : Store) (pid : Nat) : Store :=
  { s with
    posts := s.posts.filter (·.id != pid),
    comments := s.comments.filter (·.post != pid) }

/-- Deleting a user: `Post.author` and `Comment.author` have
`on_delete=CASCADE`, so the user's posts and comments are deleted, and the
cascade through each deleted post also deletes the comments sitting on a
post authored by the deleted user. -/
def Store.delete_user (s : Store) (uid : Nat) : Store :=
  { users := s.users.filter (·.id != uid),
    posts := s.posts.filter (·.author != uid),
    comments := s.comments.filter (fun c =>
      c.author != uid &&
        !(s.posts.any (fun p => p.id == c.post && p.author == uid))) }

/-- Looking a post id up in the published-only queryset: when post ids are
unique, the lookup finds the post exactly when it is published. -/
theorem find_in_published_queryset (posts : List Post) (pid : Nat)
    (obj : Post) (hp : posts.find? (·.id == pid) = some obj)
    (hids : ∀ p1 ∈ posts, ∀ p2 ∈ posts, p1.id = p2.id → p1 = p2) :
    (posts.filter (·.is_published)).find? (·.id == pid) =
      if obj.is_published then some obj else none := by
  have hobj_mem : obj ∈ posts := List.mem_of_find?_eq_some hp
  have hobj_pred : obj.id = pid := by
    have := List.find?_some hp
    simpa using this
  cases hpub : obj.is_published with
  | true =>
    simp only [if_true]
    have hmemf : obj ∈ posts.filter (·.is_published) :=
      List.mem_filter.mpr ⟨hobj_mem, hpub⟩
    have hsome : ((posts.filter (·.is_published)).find? (·.id == pid)).isSome := by
      rw [List.find?_isSome]
      exact ⟨obj, hmemf, by simpa using hobj_pred⟩
    obtain ⟨x, hx⟩ := Option.isSome_iff_exists.mp hsome
    have hx_pred : x.id = pid := by
      have := List.find?_some hx
      simpa using this
    have hx_mem : x ∈ posts := (List.mem_filter.mp (List.mem_of_find?_eq_some hx)).1
    have hxid : x.id = obj.id := by rw [hx_pred, hobj_pred]
    have hxe : x = obj := hids x hx_mem obj hobj_mem hxid
    rw [hx, hxe]
  | false =>
    simp only [Bool.false_eq_true, if_false]
    rw [List.find?_eq_none]
    intro x hxf hx_pred
    have hx_mem : x ∈ posts := (List.mem_filter.mp hxf).1
    have hx_pub : x.is_published = true := (List.mem_filter.mp hxf).2
    have hxid : x.id = obj.id := by
      have h1 : x.id = pid := by simpa using hx_pred
      rw [h1, hobj_pred]
    have hxe : x = obj := hids x hx_mem obj hobj_mem hxid
    rw [hxe, hpub] at hx_pub
    exact Bool.false_ne_true hx_pub

/-- C1: For every persisted post and comment and every mutating (non-safe)
method, an anonymous request is denied at both viewsets, and an
authenticated request is allowed exactly when the actor's user id equals the
persisted resource's author id. -/
theorem C1_mutation_requires_persisted_author (m : Method)
    (hm : m.isSafe = false) (a : Identity) (pid cid : Nat)
    (posts : List Post) (comments : List Comment) (obj : Post)
    (cobj : Comment) (hp : posts.find? (·.id == pid) = some obj)
    (hc : comments.find? (·.id == cid) = some cobj) :
    isAllowed (PostViewSet.dispatch none m pid posts) = false ∧
    isAllowed (CommentViewSet.dispatch none m cid comments) = false ∧
    isAllowed (PostViewSet.dispatch (some a) m pid posts) =
      (obj.author == a.user_id) ∧
    isAllowed (CommentViewSet.dispatch (some a) m cid comments) =
      (cobj.author == a.user_id) := by
  refine ⟨?_, ?_, ?_, ?_⟩
  · simp [PostViewSet.dispatch,
      IsAuthenticatedOrReadOnlyPublished.has_permission, hm, isAllowed,
      permission_denied]
  · simp [CommentViewSet.dispatch, IsAuthenticated.has_permission, isAllowed,
      permission_denied]
  · simp only [PostViewSet.dispatch,
      IsAuthenticatedOrReadOnlyPublished.has_permission, hm,
      PostViewSet.get_queryset, hp, Option.isSome_some, if_false, if_true,
      IsAuthenticatedOrReadOnlyPublished.has_object_permission]
    cases h : (obj.author == a.user_id) <;> simp [h, isAllowed]
  · simp only [CommentViewSet.dispatch, IsAuthenticated.has_permission,
      Option.isSome_some, if_true, hc,
      IsAuthorOrReadOnly.has_object_permission, hm]
    cases h : (cobj.author == a.user_id) <;> simp [h, isAllowed]

/-- Closed instance of `C1_mutation_requires_persisted_author`: one post and
one comment authored by user 10, a DELETE request, and actor 10 (allowed
branch evaluates to `true` since the ids match). -/
theorem C1_mutation_requires_persisted_author_witness :
    (Method.DELETE.isSafe = false) ∧
    ([Post.mk 1 10 "t" "b" false].find? (·.id == 1) = some (Post.mk 1 10 "t" "b" false)) ∧
    ([Comment.mk 2 1 10 "c" false].find? (·.id == 2) = some (Comment.mk 2 1 10 "c" false)) ∧
    (isAllowed (PostViewSet.dispatch none .DELETE 1 [Post.mk 1 10 "t" "b" false]) = false ∧
     isAllowed (CommentViewSet.dispatch none .DELETE 2 [Comment.mk 2 1 10 "c" false]) = false ∧
     isAllowed (PostViewSet.dispatch (some (Identity.mk 10 "owner")) .DELETE 1
        [Post.mk 1 10 "t" "b" false]) = ((Post.mk 1 10 "t" "b" false).author == (10 : Nat)) ∧
     isAllowed (CommentViewSet.dispatch (some (Identity.mk 10 "owner")) .DELETE 2
        [Comment.mk 2 1 10 "c" false]) = ((Comment.mk 2 1 10 "c" false).author == (10 : Nat))) :=
  ⟨by decide, by decide, by decide,
    C1_mutation_requires_persisted_author .DELETE (by decide)
      (Identity.mk 10 "owner") 1 2 [Post.mk 1 10 "t" "b" false]
      [Comment.mk 2 1 10 "c" false] (Post.mk 1 10 "t" "b" false)
      (Comment.mk 2 1 10 "c" false) (by decide) (by decide)⟩

/-- C2: With unique post ids, an anonymous GET of a persisted post is
allowed exactly when the post is published, an authenticated GET of a
persisted post is always allowed, and listing returns the published subset
to anonymous actors and the full set to any authenticated actor. -/
theorem C2_post_read_visibility (pid : Nat) (posts : List Post) (obj : Post)
    (hp : posts.find? (·.id == pid) = some obj)
    (hids : ∀ p1 ∈ posts, ∀ p2 ∈ posts, p1.id = p2.id → p1 = p2)
    (a : Identity) :
    isAllowed (PostViewSet.dispatch none .GET pid posts) = obj.is_published ∧
    isAllowed (PostViewSet.dispatch (some a) .GET pid posts) = true ∧
    PostViewSet.list none posts = posts.filter (·.is_published) ∧
    PostViewSet.list (some a) posts = posts := by
  refine ⟨?_, ?_, rfl, rfl⟩
  · have hfind := find_in_published_queryset posts pid obj hp hids
    cases hpub : obj.is_published with
    | true =>
      rw [hpub] at hfind
      simp only [if_true] at hfind
      simp [PostViewSet.dispatch,
        IsAuthenticatedOrReadOnlyPublished.has_permission, Method.isSafe,
        PostViewSet.get_queryset, hfind,
        IsAuthenticatedOrReadOnlyPublished.has_object_permission, hpub,
        isAllowed]
    | false =>
      rw [hpub] at hfind
      simp only [Bool.false_eq_true, if_false] at hfind
      simp [PostViewSet.dispatch,
        IsAuthenticatedOrReadOnlyPublished.has_permission, Method.isSafe,
        PostViewSet.get_queryset, hfind, isAllowed]
  · simp [PostViewSet.dispatch,
      IsAuthenticatedOrReadOnlyPublished.has_permission, Method.isSafe,
      PostViewSet.get_queryset, hp,
      IsAuthenticatedOrReadOnlyPublished.has_object_permission, isAllowed]

/-- Closed instance of `C2_post_read_visibility`: a store with one published
and one unpublished post; looking the unpublished one up. -/
theorem C2_post_read_visibility_witness :
    ([Post.mk 1 5 "t" "b" true, Post.mk 2 5 "u" "v" false].find? (·.id == 2) =
      some (Post.mk 2 5 "u" "v" false)) ∧
    (∀ p1 ∈ [Post.mk 1 5 "t" "b" true, Post.mk 2 5 "u" "v" false],
      ∀ p2 ∈ [Post.mk 1 5 "t" "b" true, Post.mk 2 5 "u" "v" false],
        p1.id = p2.id → p1 = p2) ∧
    (isAllowed (PostViewSet.dispatch none .GET 2
        [Post.mk 1 5 "t" "b" true, Post.mk 2 5 "u" "v" false]) =
      (Post.mk 2 5 "u" "v" false).is_published ∧
     isAllowed (PostViewSet.dispatch (some (Identity.mk 7 "bob")) .GET 2
        [Post.mk 1 5 "t" "b" true, Post.mk 2 5 "u" "v" false]) = true ∧
     PostViewSet.list none [Post.mk 1 5 "t" "b" true, Post.mk 2 5 "u" "v" false] =
      [Post.mk 1 5 "t" "b" true, Post.mk 2 5 "u" "v" false].filter (·.is_published) ∧
     PostViewSet.list (some (Identity.mk 7 "bob"))
        [Post.mk 1 5 "t" "b" true, Post.mk 2 5 "u" "v" false] =
      [Post.mk 1 5 "t" "b" true, Post.mk 2 5 "u" "v" false]) :=
  ⟨by decide, by decide,
    C2_post_read_visibility 2 [Post.mk 1 5 "t" "b" true, Post.mk 2 5 "u" "v" false]
      (Post.mk 2 5 "u" "v" false) (by decide) (by decide) (Identity.mk 7 "bob")⟩

/-- C3: Verifying credentials with an unknown username yields the very same
`AuthenticationFailed` error, with the same message, as verifying an
existing username with a password that fails the hash comparison. -/
theorem C3_login_enumeration_resistant (users1 users2 : List User)
    (n1 p1 n2 p2 : String)
    (h1 : ∀ u ∈ users1, u.username ≠ n1) (u : User)
    (h2 : users2.find? (·.username == n2) = some u)
    (h3 : check_password p2 u.password = false) :
    CustomTokenObtainPairSerializer.validate n1 p1 users1 =
      .error (ApiError.authenticationFailed
        "No active account found with the given credentials") ∧
    CustomTokenObtainPairSerializer.validate n2 p2 users2 =
      CustomTokenObtainPairSerializer.validate n1 p1 users1 := by
  have hnone : users1.find? (·.username == n1) = none := by
    rw [List.find?_eq_none]
    intro x hx
    simpa using h1 x hx
  constructor
  · simp [CustomTokenObtainPairSerializer.validate, hnone]
  · simp [CustomTokenObtainPairSerializer.validate, hnone, h2, h3]

/-- Closed instance of `C3_login_enumeration_resistant`: an empty table
probed with `ghost`, and a table holding `alice` probed with a wrong
password. -/
theorem C3_login_enumeration_resistant_witness :
    (∀ u ∈ ([] : List User), u.username ≠ "ghost") ∧
    ([User.mk 1 "alice" (make_password "pw1")].find? (·.username == "alice") =
      some (User.mk 1 "alice" (make_password "pw1"))) ∧
    (check_password "wrong" (User.mk 1 "alice" (make_password "pw1")).password = false) ∧
    (CustomTokenObtainPairSerializer.validate "ghost" "x" [] =
      .error (ApiError.authenticationFailed
        "No active account found with the given credentials") ∧
     CustomTokenObtainPairSerializer.validate "alice" "wrong"
        [User.mk 1 "alice" (make_password "pw1")] =
      CustomTokenObtainPairSerializer.validate "ghost" "x" []) :=
  ⟨by simp, by decide, by decide,
    C3_login_enumeration_resistant [] [User.mk 1 "alice" (make_password "pw1")]
      "ghost" "x" "alice" "wrong" (by simp)
      (User.mk 1 "alice" (make_password "pw1")) (by decide) (by decide)⟩

/-- C4: With unique user ids, authenticating the access token issued for a
persisted user resolves to an identity with that user's id and username. -/
theorem C4_token_roundtrip (users : List User) (user : User)
    (hmem : user ∈ users)
    (hunique : ∀ u1 ∈ users, ∀ u2 ∈ users, u1.id = u2.id → u1 = u2) :
    ∃ u, CustomJWTAuthentication.get_user
        (RefreshToken.access_token
          (CustomTokenObtainPairSerializer.get_token user)) users = .ok u ∧
      u.id = user.id ∧ u.username = user.username := by
  have hsome : (users.find? (·.id == user.id)).isSome := by
    rw [List.find?_isSome]
    exact ⟨user, hmem, by simp⟩
  obtain ⟨x, hx⟩ := Option.isSome_iff_exists.mp hsome
  have hxid : x.id = user.id := by
    have := List.find?_some hx
    simpa using this
  have hx_mem : x ∈ users := List.mem_of_find?_eq_some hx
  have hxe : x = user := hunique x hx_mem user hmem hxid
  refine ⟨x, ?_, hxid, by rw [hxe]⟩
  simp [CustomJWTAuthentication.get_user, RefreshToken.access_token,
    CustomTokenObtainPairSerializer.get_token, hx]

/-- Closed instance of `C4_token_roundtrip`: a two-user table and the token
issued for the second user. -/
theorem C4_token_roundtrip_witness :
    (User.mk 2 "bob" "h2" ∈ [User.mk 1 "alice" "h1", User.mk 2 "bob" "h2"]) ∧
    (∀ u1 ∈ [User.mk 1 "alice" "h1", User.mk 2 "bob" "h2"],
      ∀ u2 ∈ [User.mk 1 "alice" "h1", User.mk 2 "bob" "h2"],
        u1.id = u2.id → u1 = u2) ∧
    (∃ u, CustomJWTAuthentication.get_user
        (RefreshToken.access_token
          (CustomTokenObtainPairSerializer.get_token (User.mk 2 "bob" "h2")))
        [User.mk 1 "alice" "h1", User.mk 2 "bob" "h2"] = .ok u ∧
      u.id = (User.mk 2 "bob" "h2").id ∧
      u.username = (User.mk 2 "bob" "h2").username) :=
  ⟨by decide, by decide,
    C4_token_roundtrip [User.mk 1 "alice" "h1", User.mk 2 "bob" "h2"]
      (User.mk 2 "bob" "h2") (by decide) (by decide)⟩

/-- C5 counterexample: reading comments is NOT open to anonymous actors.
At a concrete store, the anonymous comment-list request, the anonymous
nested comment-list request for a published post, and the anonymous
single-comment GET are all rejected (with an authentication-required
error), refuting the claim that every actor, including an anonymous one,
may read and list comments. -/
theorem C5_anonymous_comment_read_denied :
    CommentViewSet.list none [Comment.mk 1 1 1 "hi" false] =
      .error ApiError.notAuthenticated ∧
    PostViewSet.get_comments none 1 [Post.mk 1 1 "t" "b" true]
        [Comment.mk 1 1 1 "hi" false] =
      .error ApiError.notAuthenticated ∧
    isAllowed (CommentViewSet.dispatch none .GET 1
        [Comment.mk 1 1 1 "hi" false]) = false := by
  refine ⟨rfl, rfl, rfl⟩

/-- C5 amended: listing and reading comments requires an authenticated
actor; any authenticated actor (not only the comment's author) may read any
persisted comment and list a post's comments, while anonymous comment reads
are rejected with an authentication-required error. -/
theorem C5_comment_read_authenticated_only (a : Identity)
    (comments : List Comment) (cid : Nat) (cobj : Comment)
    (hc : comments.find? (·.id == cid) = some cobj)
    (pid : Nat) (posts : List Post) (p : Post)
    (hp : posts.find? (·.id == pid) = some p) :
    CommentViewSet.list (some a) comments = .ok comments ∧
    CommentViewSet.dispatch (some a) .GET cid comments = .ok cobj ∧
    PostViewSet.get_comments (some a) pid posts comments =
      .ok (comments.filter (·.post == p.id)) ∧
    CommentViewSet.list none comments = .error ApiError.notAuthenticated ∧
    PostViewSet.get_comments none pid posts comments =
      .error ApiError.notAuthenticated := by
  refine ⟨rfl, ?_, ?_, rfl, rfl⟩
  · simp [CommentViewSet.dispatch, IsAuthenticated.has_permission, hc,
      IsAuthorOrReadOnly.has_object_permission, Method.isSafe]
  · simp [PostViewSet.get_comments, IsAuthenticated.has_permission,
      PostViewSet.get_queryset, hp]

/-- Closed instance of `C5_comment_read_authenticated_only`: actor 9 (not
the author) reads the single comment on post 1. -/
theorem C5_comment_read_authenticated_only_witness :
    ([Comment.mk 1 1 2 "hi" false].find? (·.id == 1) =
      some (Comment.mk 1 1 2 "hi" false)) ∧
    ([Post.mk 1 2 "t" "b" true].find? (·.id == 1) =
      some (Post.mk 1 2 "t" "b" true)) ∧
    (CommentViewSet.list (some (Identity.mk 9 "carol"))
        [Comment.mk 1 1 2 "hi" false] = .ok [Comment.mk 1 1 2 "hi" false] ∧
     CommentViewSet.dispatch (some (Identity.mk 9 "carol")) .GET 1
        [Comment.mk 1 1 2 "hi" false] = .ok (Comment.mk 1 1 2 "hi" false) ∧
     PostViewSet.get_comments (some (Identity.mk 9 "carol")) 1
        [Post.mk 1 2 "t" "b" true] [Comment.mk 1 1 2 "hi" false] =
      .ok ([Comment.mk 1 1 2 "hi" false].filter (·.post == (Post.mk 1 2 "t" "b" true).id)) ∧
     CommentViewSet.list none [Comment.mk 1 1 2 "hi" false] =
      .error ApiError.notAuthenticated ∧
     PostViewSet.get_comments none 1 [Post.mk 1 2 "t" "b" true]
        [Comment.mk 1 1 2 "hi" false] = .error ApiError.notAuthenticated) :=
  ⟨by decide, by decide,
    C5_comment_read_authenticated_only (Identity.mk 9 "carol")
      [Comment.mk 1 1 2 "hi" false] 1 (Comment.mk 1 1 2 "hi" false)
      (by decide) 1 [Post.mk 1 2 "t" "b" true] (Post.mk 1 2 "t" "b" true)
      (by decide)⟩

/-- C6: For every mutating method on a persisted post or comment, the
anonymous request fails with `notAuthenticated` while the request of an
authenticated non-author fails with `permissionDenied`, and the two error
kinds are distinct. -/
theorem C6_auth_error_distinct_from_ownership_error (m : Method)
    (hm : m.isSafe = false) (a : Identity) (pid cid : Nat)
    (posts : List Post) (comments : List Comment) (obj : Post)
    (cobj : Comment) (hp : posts.find? (·.id == pid) = some obj)
    (hc : comments.find? (·.id == cid) = some cobj)
    (hpo : (obj.author == a.user_id) = false)
    (hco : (cobj.author == a.user_id) = false) :
    PostViewSet.dispatch none m pid posts = .error ApiError.notAuthenticated ∧
    CommentViewSet.dispatch none m cid comments =
      .error ApiError.notAuthenticated ∧
    PostViewSet.dispatch (some a) m pid posts =
      .error ApiError.permissionDenied ∧
    CommentViewSet.dispatch (some a) m cid comments =
      .error ApiError.permissionDenied ∧
    ApiError.notAuthenticated ≠ ApiError.permissionDenied := by
  refine ⟨?_, ?_, ?_, ?_, by decide⟩
  · simp [PostViewSet.dispatch,
      IsAuthenticatedOrReadOnlyPublished.has_permission, hm,
      permission_denied]
  · simp [CommentViewSet.dispatch, IsAuthenticated.has_permission,
      permission_denied]
  · simp [PostViewSet.dispatch,
      IsAuthenticatedOrReadOnlyPublished.has_permission, hm,
      PostViewSet.get_queryset, hp,
      IsAuthenticatedOrReadOnlyPublished.has_object_permission, hpo,
      permission_denied]
  · simp [CommentViewSet.dispatch, IsAuthenticated.has_permission, hc,
      IsAuthorOrReadOnly.has_object_permission, hm, hco, permission_denied]

/-- Closed instance of `C6_auth_error_distinct_from_ownership_error`:
actor 99 attempts a PUT on a post and a comment authored by user 10. -/
theorem C6_auth_error_distinct_from_ownership_error_witness :
    (Method.PUT.isSafe = false) ∧
    ([Post.mk 1 10 "t" "b" true].find? (·.id == 1) =
      some (Post.mk 1 10 "t" "b" true)) ∧
    ([Comment.mk 2 1 10 "c" false].find? (·.id == 2) =
      some (Comment.mk 2 1 10 "c" false)) ∧
    (((Post.mk 1 10 "t" "b" true).author == (99 : Nat)) = false) ∧
    (((Comment.mk 2 1 10 "c" false).author == (99 : Nat)) = false) ∧
    (PostViewSet.dispatch none .PUT 1 [Post.mk 1 10 "t" "b" true] =
      .error ApiError.notAuthenticated ∧
     CommentViewSet.dispatch none .PUT 2 [Comment.mk 2 1 10 "c" false] =
      .error ApiError.notAuthenticated ∧
     PostViewSet.dispatch (some (Identity.mk 99 "eve")) .PUT 1
        [Post.mk 1 10 "t" "b" true] = .error ApiError.permissionDenied ∧
     CommentViewSet.dispatch (some (Identity.mk 99 "eve")) .PUT 2
        [Comment.mk 2 1 10 "c" false] = .error ApiError.permissionDenied ∧
     ApiError.notAuthenticated ≠ ApiError.permissionDenied) :=
  ⟨by decide, by decide, by decide, by decide, by decide,
    C6_auth_error_distinct_from_ownership_error .PUT (by decide)
      (Identity.mk 99 "eve") 1 2 [Post.mk 1 10 "t" "b" true]
      [Comment.mk 2 1 10 "c" false] (Post.mk 1 10 "t" "b" true)
      (Comment.mk 2 1 10 "c" false) (by decide) (by decide) (by decide)
      (by decide)⟩

/-- C7: The registration endpoint evaluated at a fresh username on an empty
user table: `UserSerializer.Meta.fields` names `email`, which is neither a
declared serializer field nor a field of the `User` model, so field
construction fails with `ImproperlyConfigured` and no user is ever created
or returned. -/
theorem C7_register_misconfigured_email_field :
    UserViewSet.create_user "alice" "pw1" [] 1 =
      .error (ApiError.improperlyConfigured
        "Field name email is not valid for model User.") ∧
    ModelSerializer.build_fields UserSerializer.declaredFields
        UserSerializer.metaFields User.modelFields "User" =
      .error (ApiError.improperlyConfigured
        "Field name email is not valid for model User.") := by
  refine ⟨rfl, rfl⟩

/-- C8: Authenticating a validated token whose `user_id` claim matches no
persisted user fails with `AuthenticationFailed` rather than crashing or
producing an identity. -/
theorem C8_token_for_deleted_user_denied (tok : Token) (users : List User)
    (h : ∀ u ∈ users, u.id ≠ tok.user_id) :
    CustomJWTAuthentication.get_user tok users =
      .error (ApiError.authenticationFailed "User not found") := by
  have hnone : users.find? (·.id == tok.user_id) = none := by
    rw [List.find?_eq_none]
    intro x hx
    simpa using h x hx
  simp [CustomJWTAuthentication.get_user, hnone]

/-- Closed instance of `C8_token_for_deleted_user_denied`: a token claiming
user 42 against a table holding only user 1. -/
theorem C8_token_for_deleted_user_denied_witness :
    (∀ u ∈ [User.mk 1 "alice" "h1"], u.id ≠ (Token.mk 42 "ghost").user_id) ∧
    CustomJWTAuthentication.get_user (Token.mk 42 "ghost")
        [User.mk 1 "alice" "h1"] =
      .error (ApiError.authenticationFailed "User not found") :=
  ⟨by decide,
    C8_token_for_deleted_user_denied (Token.mk 42 "ghost")
      [User.mk 1 "alice" "h1"] (by decide)⟩

/-- C9: An anonymous GET for a post id that does not exist and an anonymous
GET for a post id that exists but is unpublished both produce the
`notFound` error, and the two responses are equal: existence is not leaked
to an actor denied read access. -/
theorem C9_not_found_indistinguishable (pid1 pid2 : Nat)
    (posts1 posts2 : List Post)
    (h1 : ∀ p ∈ posts1, p.id ≠ pid1)
    (hex : ∃ p ∈ posts2, p.id = pid2)
    (h2 : ∀ p ∈ posts2, p.id = pid2 → p.is_published = false) :
    PostViewSet.dispatch none .GET pid1 posts1 = .error ApiError.notFound ∧
    PostViewSet.dispatch none .GET pid2 posts2 = .error ApiError.notFound ∧
    PostViewSet.dispatch none .GET pid1 posts1 =
      PostViewSet.dispatch none .GET pid2 posts2 := by
  have hn1 : (posts1.filter (·.is_published)).find? (·.id == pid1) = none := by
    rw [List.find?_eq_none]
    intro x hx
    simpa using h1 x (List.mem_filter.mp hx).1
  have hn2 : (posts2.filter (·.is_published)).find? (·.id == pid2) = none := by
    rw [List.find?_eq_none]
    intro x hx
    have hx_mem : x ∈ posts2 := (List.mem_filter.mp hx).1
    have hx_pub : x.is_published = true := (List.mem_filter.mp hx).2
    intro hbeq
    have hxid : x.id = pid2 := by simpa using hbeq
    rw [h2 x hx_mem hxid] at hx_pub
    exact Bool.false_ne_true hx_pub
  refine ⟨?_, ?_, ?_⟩
  · simp [PostViewSet.dispatch,
      IsAuthenticatedOrReadOnlyPublished.has_permission, Method.isSafe,
      PostViewSet.get_queryset, hn1]
  · simp [PostViewSet.dispatch,
      IsAuthenticatedOrReadOnlyPublished.has_permission, Method.isSafe,
      PostViewSet.get_queryset, hn2]
  · simp [PostViewSet.dispatch,
      IsAuthenticatedOrReadOnlyPublished.has_permission, Method.isSafe,
      PostViewSet.get_queryset, hn1, hn2]

/-- Closed instance of `C9_not_found_indistinguishable`: id 7 is absent
from the first store; id 2 exists unpublished in the second store. -/
theorem C9_not_found_indistinguishable_witness :
    (∀ p ∈ [Post.mk 1 5 "t" "b" true], p.id ≠ 7) ∧
    (∃ p ∈ [Post.mk 1 5 "t" "b" true, Post.mk 2 5 "u" "v" false], p.id = 2) ∧
    (∀ p ∈ [Post.mk 1 5 "t" "b" true, Post.mk 2 5 "u" "v" false],
      p.id = 2 → p.is_published = false) ∧
    (PostViewSet.dispatch none .GET 7 [Post.mk 1 5 "t" "b" true] =
      .error ApiError.notFound ∧
     PostViewSet.dispatch none .GET 2
        [Post.mk 1 5 "t" "b" true, Post.mk 2 5 "u" "v" false] =
      .error ApiError.notFound ∧
     PostViewSet.dispatch none .GET 7 [Post.mk 1 5 "t" "b" true] =
      PostViewSet.dispatch none .GET 2
        [Post.mk 1 5 "t" "b" true, Post.mk 2 5 "u" "v" false]) :=
  ⟨by decide, by decide, by decide,
    C9_not_found_indistinguishable 7 2 [Post.mk 1 5 "t" "b" true]
      [Post.mk 1 5 "t" "b" true, Post.mk 2 5 "u" "v" false] (by decide)
      (by decide) (by decide)⟩

/-- C10: The CASCADE deletes preserve referential integrity: starting from
a well-formed store, deleting any user (cascading to their posts and
comments, and to comments on their posts) and deleting any post (cascading
to its comments) each leave every surviving post and comment with an
existing author and every surviving comment with an existing parent post. -/
theorem C10_cascade_preserves_integrity (s : Store) (hs : s.wellFormed)
    (uid pid : Nat) :
    (s.delete_user uid).wellFormed ∧ (s.delete_post pid).wellFormed := by
  obtain ⟨hpa, hca, hcp⟩ := hs
  constructor
  · unfold Store.wellFormed Store.delete_user
    refine ⟨?_, ?_, ?_⟩
    · intro p hp
      have hp_mem : p ∈ s.posts := (List.mem_filter.mp hp).1
      have hp_ne : (p.author != uid) = true := (List.mem_filter.mp hp).2
      obtain ⟨u, hu_mem, hu_id⟩ := hpa p hp_mem
      refine ⟨u, List.mem_filter.mpr ⟨hu_mem, ?_⟩, hu_id⟩
      simp only [bne_iff_ne, ne_eq] at hp_ne ⊢
      rw [hu_id]
      exact hp_ne
    · intro c hc
      have hc_mem : c ∈ s.comments := (List.mem_filter.mp hc).1
      have hc_cond := (List.mem_filter.mp hc).2
      simp only [Bool.and_eq_true] at hc_cond
      have hc_author : (c.author != uid) = true := hc_cond.1
      obtain ⟨u, hu_mem, hu_id⟩ := hca c hc_mem
      refine ⟨u, List.mem_filter.mpr ⟨hu_mem, ?_⟩, hu_id⟩
      simp only [bne_iff_ne, ne_eq] at hc_author ⊢
      rw [hu_id]
      exact hc_author
    · intro c hc
      have hc_mem : c ∈ s.comments := (List.mem_filter.mp hc).1
      have hc_cond := (List.mem_filter.mp hc).2
      simp only [Bool.and_eq_true] at hc_cond
      have hnoany : s.posts.any (fun p => p.id == c.post && p.author == uid) = false := by
        have h2 := hc_cond.2
        simpa using h2
      obtain ⟨p, hp_mem, hp_id⟩ := hcp c hc_mem
      have hp_author : p.author ≠ uid := by
        intro he
        have hany : s.posts.any (fun q => q.id == c.post && q.author == uid) = true := by
          rw [List.any_eq_true]
          exact ⟨p, hp_mem, by simp [hp_id, he]⟩
        rw [hnoany] at hany
        exact Bool.false_ne_true hany
      exact ⟨p, List.mem_filter.mpr ⟨hp_mem, by simpa using hp_author⟩, hp_id⟩
  · unfold Store.wellFormed Store.delete_post
    refine ⟨?_, ?_, ?_⟩
    · intro p hp
      exact hpa p (List.mem_filter.mp hp).1
    · intro c hc
      exact hca c (List.mem_filter.mp hc).1
    · intro c hc
      have hc_mem : c ∈ s.comments := (List.mem_filter.mp hc).1
      have hc_ne : (c.post != pid) = true := (List.mem_filter.mp hc).2
      obtain ⟨p, hp_mem, hp_id⟩ := hcp c hc_mem
      refine ⟨p, List.mem_filter.mpr ⟨hp_mem, ?_⟩, hp_id⟩
      simp only [bne_iff_ne, ne_eq] at hc_ne ⊢
      rw [hp_id]
      exact hc_ne

/-- Closed instance of `C10_cascade_preserves_integrity`: a store with two
users, a post by user 1 and a comment by user 2 on that post; deleting
user 1 and deleting post 1 each keep the store well-formed. -/
theorem C10_cascade_preserves_integrity_witness :
    (Store.mk [User.mk 1 "a" "h", User.mk 2 "b" "h"]
        [Post.mk 1 1 "t" "b" true] [Comment.mk 1 1 2 "c" false]).wellFormed ∧
    (((Store.mk [User.mk 1 "a" "h", User.mk 2 "b" "h"]
        [Post.mk 1 1 "t" "b" true] [Comment.mk 1 1 2 "c" false]).delete_user 1).wellFormed ∧
     ((Store.mk [User.mk 1 "a" "h", User.mk 2 "b" "h"]
        [Post.mk 1 1 "t" "b" true] [Comment.mk 1 1 2 "c" false]).delete_post 1).wellFormed) :=
  ⟨by decide,
    C10_cascade_preserves_integrity
      (Store.mk [User.mk 1 "a" "h", User.mk 2 "b" "h"]
        [Post.mk 1 1 "t" "b" true] [Comment.mk 1 1 2 "c" false])
      (by decide) 1 1⟩
